import Mathlib

/-!
Verification of the elysia-bun User CRUD service.

The service is a single-entity REST API: a mongoose `User` model with
three required string fields bounded to 3–255 characters, four route
handlers (create, list, update, delete), a bearer-token hook that runs
before every handler, and a bootstrap that connects to MongoDB before
listening.  The definitions below embed that code; machine state is the
Mongo collection, represented as a list of documents together with the
counter the database uses to assign fresh identifiers.
-/

namespace ElysiaBun

/-- A persisted `User` document: the three schema fields of
`src/src/models/user-model.ts` plus the database-assigned identifier
(Mongo's `_id`, which the database keeps unique). -/
structure User where
  id : Nat
  name : String
  email : String
  password : String
  deriving Repr, DecidableEq

/-- The state of the `User` collection: the stored documents and the
counter standing for the database's fresh-identifier supply. -/
structure DB where
  users : List User
  nextId : Nat
  deriving Repr, DecidableEq

/-- A JSON request body as the handlers see it: the three recognised
fields (`none` when the client omitted one) plus whatever additional
properties the client sent.  The handlers destructure exactly
`{ name, email, password }` from the body, so `extra` models the
properties that destructuring leaves behind. -/
structure Body where
  name : Option String
  email : Option String
  password : Option String
  extra : List (String × String)
  deriving Repr, DecidableEq

/-- One field rule of `UserSchema`
(`required: true, minlength: 3, maxlength: 255`): a missing field fails
`required`, a present one must be 3–255 characters long. -/
def validField : Option String → Bool
  | none => false
  | some s => decide (3 ≤ s.length) && decide (s.length ≤ 255)

/-- The whole-document validation `user.create` runs: every one of the
three schema fields must satisfy its rule. -/
def validBody (b : Body) : Bool :=
  validField b.name && validField b.email && validField b.password

/-- `user.create({ name, email, password })`: validates the document
against `UserSchema`; on success inserts it with a fresh identifier and
returns the new document, otherwise rejects with a validation error. -/
def userCreate (db : DB) (b : Body) : Except String (User × DB) :=
  match b.name, b.email, b.password with
  | some n, some e, some p =>
      if validField (some n) && validField (some e) && validField (some p) then
        let u : User := ⟨db.nextId, n, e, p⟩
        .ok (u, ⟨db.users ++ [u], db.nextId + 1⟩)
      else .error "User validation failed"
  | _, _, _ => .error "User validation failed"

/-- `user.find()`: returns every stored document. -/
def userFind (db : DB) : List User := db.users

/-- `user.findByIdAndUpdate(id, { name, email, password }, { new: true })`:
if a document with the identifier exists, overwrite the three fields
(mongoose drops `undefined` keys from an update, hence `getD`) and return
the updated document (`new: true`); otherwise return `null` and leave the
collection unchanged.  `_id` is unique, so rewriting every matching
document rewrites the single match. -/
def userFindByIdAndUpdate (db : DB) (id : Nat) (b : Body) : Option User × DB :=
  match db.users.find? (fun u => u.id == id) with
  | none => (none, db)
  | some u =>
      let u' : User :=
        { u with
          name := b.name.getD u.name
          email := b.email.getD u.email
          password := b.password.getD u.password }
      (some u', ⟨db.users.map (fun v => if v.id == id then u' else v), db.nextId⟩)

/-- `user.findByIdAndDelete(id)`: removes the document with the
identifier when present, and is a silent no-op otherwise.  `_id` is
unique, so removing every matching document removes the single match. -/
def userFindByIdAndDelete (db : DB) (id : Nat) : DB :=
  ⟨db.users.filter (fun u => u.id != id), db.nextId⟩

/-- The static shared secret the gate compares against. -/
def bearerSecret : String := "12345678"

/-- The `onBeforeHandle` hook: throws `Unauthorized` when the bearer
token is falsy (absent or the empty string) or differs from the static
secret.  Returns `true` exactly when the request may proceed to a
handler. -/
def onBeforeHandle (bearer : Option String) : Bool :=
  match bearer with
  | none => false
  | some b => !(b == "") && (b == bearerSecret)

/-- The route part of a request: the four verb+path pairs the controller
registers. -/
inductive Route
  | postUser (body : Body)
  | getUser
  | putUser (id : Nat) (body : Body)
  | deleteUser (id : Nat)
  deriving Repr, DecidableEq

/-- An incoming request: the bearer credential the `@elysiajs/bearer`
plugin extracted from its `Authorization: Bearer <token>` header (`none`
when the header is absent or carries no bearer scheme) and the matched
route. -/
structure Request where
  bearer : Option String
  route : Route
  deriving Repr, DecidableEq

/-- The observable outcome of one request. -/
inductive Response
  | unauthorized
  | validationError (msg : String)
  | created (u : User)
  | listed (us : List User)
  | updated (u : Option User)
  | deleted (msg : String)
  deriving Repr, DecidableEq

/-- The full pipeline for one request: the bearer hook runs first and an
invalid token stops handling before any route handler; otherwise the
matched handler performs its persistence call and produces the
response. -/
def handleRequest (req : Request) (db : DB) : Response × DB :=
  if onBeforeHandle req.bearer then
    match req.route with
    | .postUser b =>
        match userCreate db b with
        | .ok (u, db') => (.created u, db')
        | .error m => (.validationError m, db)
    | .getUser => (.listed (userFind db), db)
    | .putUser id b =>
        let r := userFindByIdAndUpdate db id b
        (.updated r.1, r.2)
    | .deleteUser id => (.deleted "User deleted", userFindByIdAndDelete db id)
  else (.unauthorized, db)

/-- The fold step of a sequence of create requests: a successful create
advances the state, a rejected one leaves it unchanged. -/
def createStep (db : DB) (b : Body) : DB :=
  match userCreate db b with
  | .ok (_, db') => db'
  | .error _ => db

/-- A sequence of create requests applied in order. -/
def createMany (db : DB) (bodies : List Body) : DB :=
  bodies.foldl createStep db

/-- A port value as JavaScript holds it: `process.env.PORT` is a string,
the fallback literal `4001` is a number. -/
inductive PortValue
  | str (s : String)
  | num (n : Nat)
  deriving Repr, DecidableEq

/-- `const PORT = process.env.PORT || 4001`: JavaScript `||` yields the
right operand when the left is falsy; an unset variable is `undefined`
and the empty string is falsy. -/
def PORT (env : Option String) : PortValue :=
  match env with
  | none => .num 4001
  | some s => if s == "" then .num 4001 else .str s

/-- What the bootstrap chain did by the time it settles. -/
structure BootOutcome where
  loggedConnected : Bool
  loggedError : Bool
  listening : Bool
  deriving Repr, DecidableEq

/-- `mongoose.connect(...).then(...).catch(...)`: on a successful
connection log `Connected to MongoDB` and call `app.listen`; on a failed
connection log the error and do nothing further. -/
def bootstrap (connectSucceeds : Bool) : BootOutcome :=
  if connectSucceeds then
    { loggedConnected := true, loggedError := false, listening := true }
  else
    { loggedConnected := false, loggedError := true, listening := false }

/-! ## Helper lemmas -/

/-- A create request that passes schema validation appends exactly one
document to the collection. -/
lemma createStep_users_of_valid (db : DB) (b : Body) (h : validBody b = true) :
    ∃ u, (createStep db b).users = db.users ++ [u] := by
  obtain ⟨nm, em, pw, ex⟩ := b
  cases nm with
  | none => simp [validBody, validField] at h
  | some n =>
    cases em with
    | none => simp [validBody, validField] at h
    | some e =>
      cases pw with
      | none => simp [validBody, validField] at h
      | some p =>
        refine ⟨⟨db.nextId, n, e, p⟩, ?_⟩
        simp only [validBody] at h
        simp [createStep, userCreate, h]

/-- A sequence of valid create requests grows the collection by exactly
its length. -/
lemma createMany_users_length (bodies : List Body) :
    ∀ db : DB, (∀ b ∈ bodies, validBody b = true) →
      (createMany db bodies).users.length = db.users.length + bodies.length := by
  induction bodies with
  | nil => intro db _; simp [createMany]
  | cons b bs ih =>
      intro db h
      have hb : validBody b = true := h b (by simp)
      obtain ⟨u, hu⟩ := createStep_users_of_valid db b hb
      have hstep : createMany db (b :: bs) = createMany (createStep db b) bs := rfl
      rw [hstep, ih _ (fun x hx => h x (by simp [hx])), hu]
      simp
      omega

/-! ## Claim theorems -/

/-- C1: a request whose bearer credential is absent or not exactly the
static secret is rejected with an unauthorized outcome before any route
handler runs, and the database state is unchanged; the hook lets a
request through exactly when its bearer token equals the secret. -/
theorem gate_rejects_unless_exact_secret (req : Request) (db : DB) :
    (onBeforeHandle req.bearer = true ↔ req.bearer = some bearerSecret) ∧
    (req.bearer ≠ some bearerSecret → handleRequest req db = (.unauthorized, db)) := by
  have hiff : onBeforeHandle req.bearer = true ↔ req.bearer = some bearerSecret := by
    cases hb : req.bearer with
    | none => simp [onBeforeHandle]
    | some b =>
        simp only [onBeforeHandle, Bool.and_eq_true, Bool.not_eq_true', beq_iff_eq,
          beq_eq_false_iff_ne, Option.some.injEq]
        constructor
        · rintro ⟨-, h⟩; exact h
        · intro h; exact ⟨by rw [h]; decide, h⟩
  refine ⟨hiff, fun h => ?_⟩
  have hb : onBeforeHandle req.bearer = false := by
    cases hob : onBeforeHandle req.bearer
    · rfl
    · exact absurd (hiff.mp hob) h
  simp [handleRequest, hb]

/-- C1 witness: a wrong token on the list route is rejected and the
empty database is untouched. -/
theorem gate_rejects_witness :
    handleRequest ⟨some "wrong", .getUser⟩ ⟨[], 0⟩ = (.unauthorized, ⟨[], 0⟩) :=
  (gate_rejects_unless_exact_secret ⟨some "wrong", .getUser⟩ ⟨[], 0⟩).2 (by decide)

/-- C2: creating a user whose three fields are present and 3–255
characters long returns the stored document with exactly those field
values and the database-assigned identifier; the document is in the
subsequent list result, and (as the identifier counter dominates every
stored id) the identifier is new. -/
theorem create_valid_returns_record (db : DB) (n e p : String) (ex : List (String × String))
    (hn : 3 ≤ n.length ∧ n.length ≤ 255)
    (he : 3 ≤ e.length ∧ e.length ≤ 255)
    (hp : 3 ≤ p.length ∧ p.length ≤ 255)
    (hfresh : ∀ v ∈ db.users, v.id < db.nextId) :
    userCreate db ⟨some n, some e, some p, ex⟩
      = .ok (⟨db.nextId, n, e, p⟩, ⟨db.users ++ [⟨db.nextId, n, e, p⟩], db.nextId + 1⟩) ∧
    (⟨db.nextId, n, e, p⟩ : User) ∈
      userFind ⟨db.users ++ [⟨db.nextId, n, e, p⟩], db.nextId + 1⟩ ∧
    ∀ v ∈ db.users, v.id ≠ db.nextId := by
  refine ⟨?_, ?_, fun v hv => Nat.ne_of_lt (hfresh v hv)⟩
  · simp [userCreate, validField, hn.1, hn.2, he.1, he.2, hp.1, hp.2]
  · simp [userFind]

/-- C2 witness: the concrete create of the spec's scenario succeeds on
the empty database. -/
theorem create_valid_witness :
    userCreate ⟨[], 0⟩ ⟨some "Ann", some "ann@x.com", some "secret", []⟩
      = .ok (⟨0, "Ann", "ann@x.com", "secret"⟩,
             ⟨[⟨0, "Ann", "ann@x.com", "secret"⟩], 1⟩) :=
  (create_valid_returns_record ⟨[], 0⟩ "Ann" "ann@x.com" "secret" []
    (by decide) (by decide) (by decide) (by simp)).1

/-- C3: a create whose body fails the schema (a missing field, or one
shorter than 3 or longer than 255 characters) is rejected with a
validation error and the collection is unchanged. -/
theorem create_invalid_rejected (db : DB) (b : Body)
    (h : validBody b = false) :
    userCreate db b = .error "User validation failed" ∧
    handleRequest ⟨some bearerSecret, .postUser b⟩ db
      = (.validationError "User validation failed", db) := by
  have h1 : userCreate db b = .error "User validation failed" := by
    obtain ⟨nm, em, pw, ex⟩ := b
    cases nm <;> cases em <;> cases pw <;> simp_all [userCreate, validBody]
  refine ⟨h1, ?_⟩
  simp [handleRequest, onBeforeHandle, bearerSecret, h1]

/-- C3 witness: a two-character name is rejected. -/
theorem create_invalid_witness :
    userCreate ⟨[], 0⟩ ⟨some "ab", some "ann@x.com", some "secret", []⟩
      = .error "User validation failed" :=
  (create_invalid_rejected ⟨[], 0⟩ ⟨some "ab", some "ann@x.com", some "secret", []⟩
    (by decide)).1

/-- C4: list returns exactly the stored collection, and after N valid
creates from the empty database it returns N documents. -/
theorem list_returns_all_persisted (bodies : List Body)
    (h : ∀ b ∈ bodies, validBody b = true) :
    (∀ db : DB, userFind db = db.users) ∧
    (userFind (createMany ⟨[], 0⟩ bodies)).length = bodies.length := by
  refine ⟨fun db => rfl, ?_⟩
  have := createMany_users_length bodies ⟨[], 0⟩ h
  simpa [userFind] using this

/-- C4 witness: two valid creates from empty give a list of length 2. -/
theorem list_returns_all_witness :
    (userFind (createMany ⟨[], 0⟩
      [⟨some "Ann", some "ann@x.com", some "secret", []⟩,
       ⟨some "Bob", some "bob@x.com", some "hunter2", []⟩])).length = 2 :=
  (list_returns_all_persisted _ (by decide)).2

/-- C5: updating an identifier that matches a stored document replaces
its three fields with the body values and returns the updated document;
the updated document appears in the subsequent list. -/
theorem update_existing_replaces_fields (db : DB) (id : Nat) (u : User)
    (n e p : String) (ex : List (String × String))
    (h : db.users.find? (fun v => v.id == id) = some u) :
    u.id = id ∧
    userFindByIdAndUpdate db id ⟨some n, some e, some p, ex⟩
      = (some ⟨u.id, n, e, p⟩,
         ⟨db.users.map (fun v => if v.id == id then ⟨u.id, n, e, p⟩ else v), db.nextId⟩) ∧
    (⟨u.id, n, e, p⟩ : User) ∈
      userFind (userFindByIdAndUpdate db id ⟨some n, some e, some p, ex⟩).2 := by
  have hid : u.id = id := by
    have := List.find?_some h
    simpa using this
  have hmem : u ∈ db.users := List.mem_of_find?_eq_some h
  refine ⟨hid, ?_, ?_⟩
  · simp [userFindByIdAndUpdate, h]
  · simp only [userFindByIdAndUpdate, h, userFind]
    refine List.mem_map.mpr ⟨u, hmem, ?_⟩
    simp [hid]

/-- C5 witness: updating the one stored document rewrites all three
fields. -/
theorem update_existing_witness :
    userFindByIdAndUpdate ⟨[⟨1, "Old", "old@x.com", "oldpw"⟩], 2⟩ 1
        ⟨some "New", some "new@x.com", some "newpw", []⟩
      = (some ⟨1, "New", "new@x.com", "newpw"⟩, ⟨[⟨1, "New", "new@x.com", "newpw"⟩], 2⟩) :=
  ((update_existing_replaces_fields ⟨[⟨1, "Old", "old@x.com", "oldpw"⟩], 2⟩ 1
      ⟨1, "Old", "old@x.com", "oldpw"⟩ "New" "new@x.com" "newpw" []
      (by decide)).2.1).trans (by decide)

/-- C6: updating an identifier that matches no stored document returns
the not-found outcome `none` and leaves the collection unchanged. -/
theorem update_missing_id_is_noop (db : DB) (id : Nat) (b : Body)
    (h : db.users.find? (fun u => u.id == id) = none) :
    userFindByIdAndUpdate db id b = (none, db) := by
  simp [userFindByIdAndUpdate, h]

/-- C6 witness: an update against the empty collection is a no-op
returning `none`. -/
theorem update_missing_witness :
    userFindByIdAndUpdate ⟨[], 0⟩ 5 ⟨some "Ann", some "ann@x.com", some "secret", []⟩
      = (none, ⟨[], 0⟩) :=
  update_missing_id_is_noop ⟨[], 0⟩ 5 ⟨some "Ann", some "ann@x.com", some "secret", []⟩ (by decide)

/-- C7: delete always answers with the same confirmation and removes
exactly the documents carrying the identifier, so deleting twice equals
deleting once, a repeated delete does not error and returns the same
message, and no other document is affected. -/
theorem delete_is_idempotent (db : DB) (id : Nat) :
    handleRequest ⟨some bearerSecret, .deleteUser id⟩ db
      = (.deleted "User deleted", userFindByIdAndDelete db id) ∧
    userFindByIdAndDelete (userFindByIdAndDelete db id) id = userFindByIdAndDelete db id ∧
    userFind (userFindByIdAndDelete db id) = (userFind db).filter (fun u => u.id != id) := by
  refine ⟨?_, ?_, rfl⟩
  · simp [handleRequest, onBeforeHandle, bearerSecret]
  · simp [userFindByIdAndDelete, List.filter_filter]

/-- C8: a failed connection attempt is logged and the listener never
starts; the listener runs exactly when the connection succeeded. -/
theorem bootstrap_listens_only_after_connect :
    (bootstrap false).loggedError = true ∧ (bootstrap false).listening = false ∧
    (∀ ok : Bool, (bootstrap ok).listening = true ↔ ok = true) := by decide

/-- C9 counterexample: with the PORT variable set to the empty string —
a set variable — the JavaScript `||` falls back to 4001 instead of using
the variable's value, refuting the claim as stated. -/
theorem port_counterexample :
    PORT (some "") = .num 4001 ∧ PORT (some "") ≠ .str "" := by decide

/-- C9 amended: the port equals the PORT variable's value when it is set
to a non-empty string, and is 4001 when the variable is unset or set to
the empty string. -/
theorem port_env_or_default (s : String) :
    (s ≠ "" → PORT (some s) = .str s) ∧ PORT none = .num 4001 ∧
    PORT (some "") = .num 4001 := by
  refine ⟨fun h => ?_, rfl, rfl⟩
  simp [PORT, h]

/-- C9 witness: a non-empty PORT value is used verbatim. -/
theorem port_witness : PORT (some "3000") = .str "3000" :=
  (port_env_or_default "3000").1 (by decide)

/-- C10: the create handler destructures exactly `name`, `email`,
`password` from the body, so two create requests agreeing on those three
fields produce the same persistence call result and the same response
whatever additional properties either body carries. -/
theorem create_depends_only_on_the_three_fields (db : DB) (b₁ b₂ : Body)
    (hn : b₁.name = b₂.name) (he : b₁.email = b₂.email) (hp : b₁.password = b₂.password) :
    userCreate db b₁ = userCreate db b₂ ∧
    ∀ tok, handleRequest ⟨tok, .postUser b₁⟩ db = handleRequest ⟨tok, .postUser b₂⟩ db := by
  obtain ⟨n₁, e₁, p₁, x₁⟩ := b₁
  obtain ⟨n₂, e₂, p₂, x₂⟩ := b₂
  simp only at hn he hp
  subst hn he hp
  exact ⟨rfl, fun tok => rfl⟩

/-- C10 witness: an extra `role` property changes nothing about the
create result. -/
theorem create_extra_fields_witness :
    userCreate ⟨[], 0⟩ ⟨some "Ann", some "ann@x.com", some "secret", [("role", "admin")]⟩
      = userCreate ⟨[], 0⟩ ⟨some "Ann", some "ann@x.com", some "secret", []⟩ :=
  (create_depends_only_on_the_three_fields ⟨[], 0⟩ _ _ rfl rfl rfl).1

end ElysiaBun
